import Mathlib

/-!
# ImageTextAlternative: the text alternative balloon of `ckeditor5-image`

A shallow embedding of `packages/ckeditor5-image/src/imagetextalternative.js`.

The plugin wires a balloon panel, a form with one labeled input, the
`imageTextAlternative` command and (when it is loaded) the image toolbar.
Every handler of the plugin is a function from the state of these objects to
the state after the handler together with the list of calls it made on its
collaborators, in program order.

The collaborators themselves (the panel, the toolbar, the command, the element
of the text input, the two handler bindings of `ckeditor5-ui`) are not part of
the embedded file; each of them is modelled from its interface in section 6 of
the specification and is marked as such.
-/

namespace ImageTextAlternative

/-- Modelled from the spec: the optional toolbar visibility source (section 6:
`show(): void`, `hide(): void`, settable `enabled: boolean`), the class
`ImageToolbar` which is missing from the sources. `shown` records which of
`show()` and `hide()` was called last. -/
structure ImageToolbar where
  shown : Bool
  isEnabled : Bool
deriving DecidableEq

/-- Where the keyboard focus is: in the input of the form, on the main editing
surface (`editor.editing.view`), or anywhere else. -/
inductive Focus
  | elsewhere
  | input
  | editingView
deriving DecidableEq

/-- A call made by the plugin on one of its collaborators. -/
inductive Call
  /-- The call `editor.execute( 'imageTextAlternative', { newValue } )`. -/
  | execute (newValue : String)
  /-- The call `balloonPanel.attach()`. -/
  | attach
  /-- The call `balloonPanel.detach()`. -/
  | detach
  /-- The call `imageToolbar.hide()`. -/
  | toolbarHide
  /-- The call `imageToolbar.show()`. -/
  | toolbarShow
  /-- The assignment `imageToolbar.isEnabled = b`. -/
  | toolbarSetIsEnabled (b : Bool)
  /-- The call `form.labeledInput.select()`. -/
  | select
  /-- The call `editor.editing.view.focus()`. -/
  | viewFocus
deriving DecidableEq

/-- The objects the plugin reads and writes. -/
structure State where
  /-- The observable `panel.isVisible`. -/
  isVisible : Bool
  /-- The property `form.labeledInput.value`. -/
  labeledInputValue : String
  /-- The property `form.labeledInput.inputView.element.value`. -/
  elementValue : String
  /-- The property `command.value` (a string or `undefined`). -/
  commandValue : Option String
  /-- The result of `editor.plugins.get( ImageToolbar )`. -/
  imageToolbar : Option ImageToolbar
  /-- The element holding the focus. -/
  focus : Focus
deriving DecidableEq

/-- What a handler gives back: the state it leaves and the calls it made. -/
abbrev Outcome := State × List Call

/-- Sequencing of two statements: the second runs in the state left by the
first and its calls follow those of the first. -/
def andThen (r : Outcome) (f : State → Outcome) : Outcome :=
  ((f r.1).1, r.2 ++ (f r.1).2)

/-- Modelled from the spec: the command source's `execute(newValue: string): void`.
The command class is missing from the sources and the spec leaves what it does
with the value to the command, so its effect on `command.value` is the
parameter `exec` (old value, submitted value, resulting value). -/
def execute (exec : Option String → String → Option String) (newValue : String)
    (s : State) : Outcome :=
  ({ s with commandValue := exec s.commandValue newValue }, [Call.execute newValue])

/-- Modelled from the spec: the toolbar's `hide(): void`. -/
def ImageToolbar.hide (t : ImageToolbar) : ImageToolbar :=
  { t with shown := false }

/-- Modelled from the spec: the toolbar's `show(): void`. -/
def ImageToolbar.show (t : ImageToolbar) : ImageToolbar :=
  { t with shown := true }

/-- The listener of `change:isVisible` (lines 113-123). It is registered only
when `editor.plugins.get( ImageToolbar )` gave a toolbar. -/
def onChangeIsVisible (s : State) : Outcome :=
  match s.imageToolbar with
  | none => (s, [])
  | some t =>
    if s.isVisible then
      ({ s with imageToolbar := some { t.hide with isEnabled := false } },
        [Call.toolbarHide, Call.toolbarSetIsEnabled false])
    else
      ({ s with imageToolbar := some { t.show with isEnabled := true } },
        [Call.toolbarShow, Call.toolbarSetIsEnabled true])

/-- Modelled from the spec: the popup host's observable `visible: boolean`.
Setting it fires `change:isVisible` when, and only when, the value changes. -/
def setIsVisible (v : Bool) (s : State) : Outcome :=
  if s.isVisible = v then (s, []) else onChangeIsVisible { s with isVisible := v }

/-- Modelled from the spec: the popup host's `attach(): void`, which shows the
panel. -/
def attach (s : State) : Outcome :=
  andThen (s, [Call.attach]) (setIsVisible true)

/-- Modelled from the spec: the popup host's `detach(): void`, which hides the
panel. -/
def detach (s : State) : Outcome :=
  andThen (s, [Call.detach]) (setIsVisible false)

/-- Modelled from the spec: `select()` of the labeled text input, which moves
the focus and the selection into the field. -/
def select (s : State) : Outcome :=
  ({ s with focus := Focus.input }, [Call.select])

/-- Modelled from the spec: `focus()` of the main editing surface. -/
def viewFocus (s : State) : Outcome :=
  ({ s with focus := Focus.editingView }, [Call.viewFocus])

/-- The expression `command.value || ''` (line 164): the empty string for
`undefined` and for the empty string, the value itself otherwise. -/
def valueOrEmpty : Option String → String
  | none => ""
  | some v => if v = "" then "" else v

/-- Modelled from the spec: the `value` setter of the element of the labeled
text input (section 6: a labeled text input supporting `value` get/set). The
element is a single-line text input, which drops every line feed (code 10) and
carriage return (code 13) from a value assigned to it. -/
def stripNewlines (v : String) : String :=
  String.mk (v.data.filter fun ch => ch.toNat != 10 && ch.toNat != 13)

/-- The method `_showBalloonPanel` (lines 153-167). In the chained assignment of
line 164 the element's `value` setter receives `command.value || ''` and keeps
it without its line breaks; `labeledInput.value` receives the value of the
right-hand side, `command.value || ''` itself. -/
def _showBalloonPanel (s : State) : Outcome :=
  andThen (attach s) fun s1 =>
    andThen
      ({ s1 with
          elementValue := stripNewlines (valueOrEmpty s1.commandValue),
          labeledInputValue := valueOrEmpty s1.commandValue }, [])
      select

/-- The method `_hideBalloonPanel` (lines 174-178). -/
def _hideBalloonPanel (s : State) : Outcome :=
  andThen (detach s) viewFocus

/-- The listener of the form's `submit` (lines 105-108). -/
def onSubmit (exec : Option String → String → Option String) (s : State) : Outcome :=
  andThen (execute exec s.elementValue s) _hideBalloonPanel

/-- The listener of the form's `cancel` (line 125). -/
def onCancel (s : State) : Outcome :=
  _hideBalloonPanel s

/-- Modelled from the spec: the binding `escPressHandler` of `ckeditor5-ui`
(section 6: the escape-key signal is delivered as a close trigger while
visible). On an escape key press it runs `callback` when `activator()` holds
and does nothing otherwise. -/
def escPressHandler (activator : State → Bool) (callback : State → Outcome)
    (s : State) : Outcome :=
  if activator s then callback s else (s, [])

/-- Modelled from the spec: the binding `clickOutsideHandler` of `ckeditor5-ui`
(section 6: the click outside the popup is delivered as a close trigger while
visible). On a click outside the context elements it runs `callback` when
`activator()` holds and does nothing otherwise. -/
def clickOutsideHandler (activator : State → Bool) (callback : State → Outcome)
    (s : State) : Outcome :=
  if activator s then callback s else (s, [])

/-- The escape binding as `_createBalloonPanel` sets it up (lines 128-132). -/
def onEscPress (s : State) : Outcome :=
  escPressHandler (fun p => p.isVisible) _hideBalloonPanel s

/-- The click-outside binding as `_createBalloonPanel` sets it up
(lines 135-140). -/
def onClickOutside (s : State) : Outcome :=
  clickOutsideHandler (fun p => p.isVisible) _hideBalloonPanel s

/-- The events the plugin reacts to. -/
inductive Event
  /-- The button's `execute` (line 87), which calls `_showBalloonPanel`: open. -/
  | buttonExecute
  /-- A direct call of `_hideBalloonPanel`: close. -/
  | close
  /-- The form's `submit`. -/
  | formSubmit
  /-- The form's `cancel`. -/
  | formCancel
  /-- An escape key press. -/
  | escPress
  /-- A click outside the panel's element. -/
  | clickOutside
deriving DecidableEq

/-- The handler that runs on an event. -/
def step (exec : Option String → String → Option String) : Event → State → Outcome
  | Event.buttonExecute, s => _showBalloonPanel s
  | Event.close, s => _hideBalloonPanel s
  | Event.formSubmit, s => onSubmit exec s
  | Event.formCancel, s => onCancel s
  | Event.escPress, s => onEscPress s
  | Event.clickOutside, s => onClickOutside s

/-- The handlers of a sequence of events, one after the other. -/
def run (exec : Option String → String → Option String) : List Event → State → Outcome
  | [], s => (s, [])
  | e :: es, s => andThen (step exec e s) (run exec es)

/-- Modelled from the spec: the state in which `init` (lines 45-63) leaves the
plugin. The popup is hidden initially (section 3) and the input is empty; the
command's value and the toolbar, if one is loaded, are as the editor has them. -/
def init (commandValue : Option String) (imageToolbar : Option ImageToolbar) : State :=
  { isVisible := false
    labeledInputValue := ""
    elementValue := ""
    commandValue := commandValue
    imageToolbar := imageToolbar
    focus := Focus.elsewhere }

/-- The toolbar is suppressed: hidden and disabled. -/
def ImageToolbar.suppressed (t : ImageToolbar) : Bool :=
  !t.shown && !t.isEnabled

/-- The toolbar of a state is suppressed (there is one and it is hidden and
disabled). -/
def toolbarSuppressed (s : State) : Bool :=
  match s.imageToolbar with
  | none => false
  | some t => t.suppressed

/-- Exactly one of two conditions holds. -/
def exactlyOne (a b : Bool) : Bool :=
  (a && !b) || (!a && b)

/-- A call on the command source. -/
def Call.isExecute : Call → Bool
  | Call.execute _ => true
  | _ => false

/-- A call on the toolbar. -/
def Call.isToolbar : Call → Bool
  | Call.toolbarHide => true
  | Call.toolbarShow => true
  | Call.toolbarSetIsEnabled _ => true
  | _ => false

/-- The events that close the popup whenever they are delivered. -/
def Event.closes : Event → Bool
  | Event.close => true
  | Event.formSubmit => true
  | Event.formCancel => true
  | _ => false

/-- The signals that close the popup while it is visible. -/
def Event.closesWhileVisible : Event → Bool
  | Event.escPress => true
  | Event.clickOutside => true
  | _ => false

/-! ## Evaluation of the handlers -/

/-- The state `_hideBalloonPanel` leaves: the panel hidden, the focus on the
editing view, and the toolbar shown and enabled when the panel was visible. -/
theorem hideBalloonPanel_state (s : State) :
    (_hideBalloonPanel s).1 =
      { s with
        isVisible := false
        focus := Focus.editingView
        imageToolbar :=
          if s.isVisible then s.imageToolbar.map fun _ => { shown := true, isEnabled := true }
          else s.imageToolbar } := by
  obtain ⟨vis, lv, ev, cv, tb, fc⟩ := s
  cases vis <;> cases tb <;>
    simp [_hideBalloonPanel, detach, setIsVisible, onChangeIsVisible, viewFocus, andThen,
      ImageToolbar.show]

/-- The calls `_hideBalloonPanel` makes. -/
theorem hideBalloonPanel_calls (s : State) :
    (_hideBalloonPanel s).2 =
      Call.detach ::
        ((if s.isVisible && s.imageToolbar.isSome then
            [Call.toolbarShow, Call.toolbarSetIsEnabled true] else []) ++ [Call.viewFocus]) := by
  obtain ⟨vis, lv, ev, cv, tb, fc⟩ := s
  cases vis <;> cases tb <;>
    simp [_hideBalloonPanel, detach, setIsVisible, onChangeIsVisible, viewFocus, andThen]

/-- The state `_showBalloonPanel` leaves. -/
theorem showBalloonPanel_state (s : State) :
    (_showBalloonPanel s).1 =
      { s with
        isVisible := true
        focus := Focus.input
        elementValue := stripNewlines (valueOrEmpty s.commandValue)
        labeledInputValue := valueOrEmpty s.commandValue
        imageToolbar :=
          if s.isVisible then s.imageToolbar
          else s.imageToolbar.map fun _ => { shown := false, isEnabled := false } } := by
  obtain ⟨vis, lv, ev, cv, tb, fc⟩ := s
  cases vis <;> cases tb <;>
    simp [_showBalloonPanel, attach, setIsVisible, onChangeIsVisible, select, andThen,
      ImageToolbar.hide]

/-- The calls `_showBalloonPanel` makes. -/
theorem showBalloonPanel_calls (s : State) :
    (_showBalloonPanel s).2 =
      Call.attach ::
        ((if !s.isVisible && s.imageToolbar.isSome then
            [Call.toolbarHide, Call.toolbarSetIsEnabled false] else []) ++ [Call.select]) := by
  obtain ⟨vis, lv, ev, cv, tb, fc⟩ := s
  cases vis <;> cases tb <;>
    simp [_showBalloonPanel, attach, setIsVisible, onChangeIsVisible, select, andThen]

/-- The visibility after a handler: visible after the button, hidden after
every other event. -/
theorem step_isVisible (exec : Option String → String → Option String) (e : Event)
    (s : State) : (step exec e s).1.isVisible = decide (e = Event.buttonExecute) := by
  cases e
  · simp [step, showBalloonPanel_state]
  · simp [step, hideBalloonPanel_state]
  · simp [step, onSubmit, andThen, hideBalloonPanel_state]
  · simp [step, onCancel, hideBalloonPanel_state]
  · cases h : s.isVisible <;>
      simp [step, onEscPress, escPressHandler, h, hideBalloonPanel_state]
  · cases h : s.isVisible <;>
      simp [step, onClickOutside, clickOutsideHandler, h, hideBalloonPanel_state]

/-- The toolbar after a handler: untouched when the visibility did not change,
hidden and disabled when the popup became visible, shown and enabled when it
became hidden. -/
theorem step_imageToolbar (exec : Option String → String → Option String) (e : Event)
    (s : State) :
    (step exec e s).1.imageToolbar =
      if (step exec e s).1.isVisible = s.isVisible then s.imageToolbar
      else s.imageToolbar.map fun _ =>
        { shown := s.isVisible, isEnabled := s.isVisible } := by
  obtain ⟨vis, lv, ev, cv, tb, fc⟩ := s
  cases e <;> cases vis <;>
    simp [step, onSubmit, onCancel, onEscPress, onClickOutside, escPressHandler,
      clickOutsideHandler, execute, andThen, showBalloonPanel_state, hideBalloonPanel_state]

/-- The calls of a handler on the toolbar: none when the visibility did not
change or no toolbar is loaded. -/
theorem step_calls_toolbar (exec : Option String → String → Option String) (e : Event)
    (s : State) :
    (step exec e s).2.filter Call.isToolbar =
      if (step exec e s).1.isVisible = s.isVisible ∨ s.imageToolbar = none then []
      else if s.isVisible then [Call.toolbarShow, Call.toolbarSetIsEnabled true]
      else [Call.toolbarHide, Call.toolbarSetIsEnabled false] := by
  obtain ⟨vis, lv, ev, cv, tb, fc⟩ := s
  cases e <;> cases vis <;> cases tb <;>
    simp [step, onSubmit, onCancel, onEscPress, onClickOutside, escPressHandler,
      clickOutsideHandler, execute, andThen, showBalloonPanel_state, hideBalloonPanel_state,
      showBalloonPanel_calls, hideBalloonPanel_calls, Call.isToolbar, List.filter]

/-- Running a sequence and then one more event. -/
theorem run_append (exec : Option String → String → Option String) (es : List Event)
    (e : Event) (s : State) :
    run exec (es ++ [e]) s = andThen (run exec es s) (step exec e) := by
  induction es generalizing s with
  | nil => simp [run, andThen]
  | cons a as ih => simp [run, andThen, ih, List.append_assoc]

/-- Running two sequences one after the other. -/
theorem run_append_list (exec : Option String → String → Option String)
    (es fs : List Event) (s : State) :
    run exec (es ++ fs) s = andThen (run exec es s) (run exec fs) := by
  induction es generalizing s with
  | nil => simp [run, andThen]
  | cons a as ih => simp [run, andThen, ih, List.append_assoc]

/-- A property kept by every handler is kept by every sequence of events. -/
theorem run_preserves (exec : Option String → String → Option String) (P : State → Prop)
    (hstep : ∀ e s, P s → P (step exec e s).1) (es : List Event) (s : State) (h : P s) :
    P (run exec es s).1 := by
  induction es generalizing s with
  | nil => simpa [run] using h
  | cons a as ih =>
    simp only [run, andThen]
    exact ih _ (hstep a s h)

/-- No handler loads or unloads the toolbar. -/
theorem step_imageToolbar_isSome (exec : Option String → String → Option String) (e : Event)
    (s : State) : (step exec e s).1.imageToolbar.isSome = s.imageToolbar.isSome := by
  rw [step_imageToolbar]
  split <;> simp

/-! ## Submit, cancel and open -/

/-- C1: in every state in which the popup is visible and the input element
holds `v`, the submit listener calls the command exactly once, with
`newValue = v`; that call is its first, the panel's `detach` comes after it,
and the popup is hidden afterwards, whatever `exec` the command applies to `v`. -/
theorem submit_executes_once_then_hides (exec : Option String → String → Option String)
    (s : State) (v : String) (hvis : s.isVisible = true) (hv : s.elementValue = v) :
    (∃ rest, (onSubmit exec s).2 = Call.execute v :: rest ∧ Call.detach ∈ rest ∧
        ∀ c ∈ rest, c.isExecute = false) ∧
      (onSubmit exec s).2.filter Call.isExecute = [Call.execute v] ∧
      (onSubmit exec s).1.commandValue = exec s.commandValue v ∧
      (onSubmit exec s).1.isVisible = false := by
  subst hv
  obtain ⟨vis, lv, ev, cv, tb, fc⟩ := s
  simp only at hvis
  subst hvis
  cases tb <;>
    simp [onSubmit, execute, andThen, _hideBalloonPanel, detach, setIsVisible,
      onChangeIsVisible, viewFocus, Call.isExecute]

/-- The submit listener at a visible popup holding the text New alt. -/
theorem submit_executes_once_then_hides_witness :
    (∃ rest,
        (onSubmit (fun _ v => some v)
          { isVisible := true, labeledInputValue := "", elementValue := "New alt",
            commandValue := none, imageToolbar := some { shown := false, isEnabled := false },
            focus := Focus.input }).2 = Call.execute "New alt" :: rest ∧
        Call.detach ∈ rest ∧ ∀ c ∈ rest, c.isExecute = false) ∧
      (onSubmit (fun _ v => some v)
          { isVisible := true, labeledInputValue := "", elementValue := "New alt",
            commandValue := none, imageToolbar := some { shown := false, isEnabled := false },
            focus := Focus.input }).2.filter Call.isExecute = [Call.execute "New alt"] ∧
      (onSubmit (fun _ v => some v)
          { isVisible := true, labeledInputValue := "", elementValue := "New alt",
            commandValue := none, imageToolbar := some { shown := false, isEnabled := false },
            focus := Focus.input }).1.commandValue = some "New alt" ∧
      (onSubmit (fun _ v => some v)
          { isVisible := true, labeledInputValue := "", elementValue := "New alt",
            commandValue := none, imageToolbar := some { shown := false, isEnabled := false },
            focus := Focus.input }).1.isVisible = false :=
  submit_executes_once_then_hides (fun _ v => some v)
    { isVisible := true, labeledInputValue := "", elementValue := "New alt",
      commandValue := none, imageToolbar := some { shown := false, isEnabled := false },
      focus := Focus.input } "New alt" rfl rfl

/-- What `_showBalloonPanel` leaves in the form, for every state and every
command value `c`: `labeledInput.value` is `c || ''`, the input element holds
`c || ''` without its line breaks, and the popup is visible. -/
theorem showBalloonPanel_input (s : State) (c : Option String) :
    (_showBalloonPanel { s with commandValue := c }).1.labeledInputValue = valueOrEmpty c ∧
      (_showBalloonPanel { s with commandValue := c }).1.elementValue =
        stripNewlines (valueOrEmpty c) ∧
      (_showBalloonPanel { s with commandValue := c }).1.isVisible = true := by
  simp [showBalloonPanel_state]

/-- A value without line feed and carriage return is kept as it is by the
input element. -/
theorem stripNewlines_eq_self (v : String)
    (h : ∀ ch ∈ v.data, ch.toNat ≠ 10 ∧ ch.toNat ≠ 13) : stripNewlines v = v := by
  have hf : v.data.filter (fun ch => ch.toNat != 10 && ch.toNat != 13) = v.data := by
    rw [List.filter_eq_self]
    intro ch hch
    simp [h ch hch]
  simp [stripNewlines, hf]

/-- C2 (the code at the failing input): with the command value
`line1\nline2\ttab`, after `_showBalloonPanel` from the state `init` leaves the
popup is visible and `labeledInput.value` is the command's value, but the input
element holds `line1line2\ttab`, which is not `command.value || ''`: the field
is not in sync with the value of the command. -/
theorem showBalloonPanel_drops_line_break :
    (_showBalloonPanel (init (some "line1\nline2\ttab") none)).1.isVisible = true ∧
      (_showBalloonPanel (init (some "line1\nline2\ttab") none)).1.labeledInputValue =
        "line1\nline2\ttab" ∧
      (_showBalloonPanel (init (some "line1\nline2\ttab") none)).1.elementValue =
        "line1line2\ttab" ∧
      (_showBalloonPanel (init (some "line1\nline2\ttab") none)).1.elementValue ≠
        valueOrEmpty (some "line1\nline2\ttab") := by
  simp only [showBalloonPanel_state, init]
  decide

/-- C3: in every state in which the popup is visible, the cancel listener makes
no call on the command (no `execute` among its calls, `command.value`
unchanged) and leaves the popup hidden. -/
theorem cancel_makes_no_command_call (s : State) (hvis : s.isVisible = true) :
    (∀ c ∈ (onCancel s).2, c.isExecute = false) ∧
      (onCancel s).2.filter Call.isExecute = [] ∧
      (onCancel s).1.commandValue = s.commandValue ∧
      (onCancel s).1.isVisible = false := by
  obtain ⟨vis, lv, ev, cv, tb, fc⟩ := s
  simp only at hvis
  subst hvis
  cases tb <;>
    simp [onCancel, _hideBalloonPanel, detach, setIsVisible, onChangeIsVisible, viewFocus,
      andThen, Call.isExecute]

/-- The cancel listener at a visible popup with a draft that was typed in. -/
theorem cancel_makes_no_command_call_witness :
    (∀ c ∈ (onCancel
        { isVisible := true, labeledInputValue := "old", elementValue := "draft",
          commandValue := some "old", imageToolbar := some { shown := false, isEnabled := false },
          focus := Focus.input }).2, c.isExecute = false) ∧
      (onCancel
        { isVisible := true, labeledInputValue := "old", elementValue := "draft",
          commandValue := some "old", imageToolbar := some { shown := false, isEnabled := false },
          focus := Focus.input }).2.filter Call.isExecute = [] ∧
      (onCancel
        { isVisible := true, labeledInputValue := "old", elementValue := "draft",
          commandValue := some "old", imageToolbar := some { shown := false, isEnabled := false },
          focus := Focus.input }).1.commandValue = some "old" ∧
      (onCancel
        { isVisible := true, labeledInputValue := "old", elementValue := "draft",
          commandValue := some "old", imageToolbar := some { shown := false, isEnabled := false },
          focus := Focus.input }).1.isVisible = false :=
  cancel_makes_no_command_call
    { isVisible := true, labeledInputValue := "old", elementValue := "draft",
      commandValue := some "old", imageToolbar := some { shown := false, isEnabled := false },
      focus := Focus.input } rfl

/-- C6: in every state in which the popup is hidden, an escape key press changes
nothing and makes no call at all, the activator of the binding being
`panel.isVisible`. -/
theorem escPress_while_hidden_is_noop (s : State) (hhid : s.isVisible = false) :
    onEscPress s = (s, []) := by
  simp [onEscPress, escPressHandler, hhid]

/-- An escape key press in the state `init` leaves. -/
theorem escPress_while_hidden_is_noop_witness :
    onEscPress (init (some "a cat") (some { shown := true, isEnabled := true })) =
      (init (some "a cat") (some { shown := true, isEnabled := true }), []) :=
  escPress_while_hidden_is_noop
    (init (some "a cat") (some { shown := true, isEnabled := true })) rfl

/-- C8: for every state `s`, `_hideBalloonPanel` leaves the popup hidden and a
second `_hideBalloonPanel` gives the same state again: visibility, input values,
command value, toolbar and focus are unchanged, and the second call makes no
call on the toolbar or on the command. -/
theorem hideBalloonPanel_idempotent (s : State) :
    (_hideBalloonPanel s).1.isVisible = false ∧
      (_hideBalloonPanel (_hideBalloonPanel s).1).1 = (_hideBalloonPanel s).1 ∧
      (_hideBalloonPanel (_hideBalloonPanel s).1).2 = [Call.detach, Call.viewFocus] := by
  obtain ⟨vis, lv, ev, cv, tb, fc⟩ := s
  cases vis <;> cases tb <;> simp [hideBalloonPanel_state, hideBalloonPanel_calls]

/-- The button followed at once by submit, for every state and every command
value `c`: the command is executed exactly once, with the content of the input
element, which is `c || ''` without its line breaks. -/
theorem open_then_submit_calls (exec : Option String → String → Option String)
    (s : State) (c : Option String) :
    (run exec [Event.buttonExecute, Event.formSubmit]
        { s with commandValue := c }).2.filter Call.isExecute =
      [Call.execute (stripNewlines (valueOrEmpty c))] := by
  obtain ⟨vis, lv, ev, cv, tb, fc⟩ := s
  cases vis <;> cases tb <;>
    simp [run, step, onSubmit, execute, andThen, showBalloonPanel_state,
      showBalloonPanel_calls, hideBalloonPanel_calls, Call.isExecute, List.filter]

/-- C10 (the code at the failing input): with the command value `a\r\nb`, the
button followed at once by submit, from the state `init` leaves, executes the
command exactly once, with `newValue = ab`, which is not the command's own
value `command.value || ''`. -/
theorem open_then_submit_drops_line_break :
    (run (fun _ v => some v) [Event.buttonExecute, Event.formSubmit]
        (init (some "a\r\nb") none)).2.filter Call.isExecute = [Call.execute "ab"] ∧
      Call.execute "ab" ≠ Call.execute (valueOrEmpty (some "a\r\nb")) := by
  refine ⟨?_, by decide⟩
  have h := open_then_submit_calls (fun _ v => some v) (init none none) (some "a\r\nb")
  have e : stripNewlines (valueOrEmpty (some "a\r\nb")) = "ab" := by decide
  rw [e] at h
  exact h

/-! ## The popup as a state machine -/

/-- The focus after a handler that ran `_hideBalloonPanel`. -/
theorem step_focus_of_closing (exec : Option String → String → Option String) (e : Event)
    (s : State)
    (h : e.closes = true ∨ (e.closesWhileVisible = true ∧ s.isVisible = true)) :
    (step exec e s).1.focus = Focus.editingView := by
  obtain ⟨vis, lv, ev, cv, tb, fc⟩ := s
  cases e <;>
    simp_all [step, onSubmit, onCancel, onEscPress, onClickOutside, escPressHandler,
      clickOutsideHandler, execute, andThen, hideBalloonPanel_state, Event.closes,
      Event.closesWhileVisible]

/-- In every state reached from the state `init` leaves with a toolbar that
is not suppressed, the toolbar is suppressed exactly when the popup is visible. -/
theorem reachable_suppressed_eq_isVisible
    (exec : Option String → String → Option String) (commandValue : Option String)
    (t : ImageToolbar) (es : List Event) (ht : t.suppressed = false) :
    toolbarSuppressed (run exec es (init commandValue (some t))).1 =
      (run exec es (init commandValue (some t))).1.isVisible := by
  refine (run_preserves exec
    (fun s => s.imageToolbar.isSome = true ∧ toolbarSuppressed s = s.isVisible)
    ?_ es _ ?_).2
  · intro e s hs
    have h1 := step_imageToolbar exec e s
    obtain ⟨vis, lv, ev, cv, tb, fc⟩ := s
    cases hv : (step exec e ⟨vis, lv, ev, cv, tb, fc⟩).1.isVisible <;> cases vis <;>
      cases tb <;>
      simp_all [toolbarSuppressed, ImageToolbar.suppressed]
  · simp [init, toolbarSuppressed, ht]

/-- C4 (as stated, refuted): from the state `init` leaves with a toolbar that is
shown and enabled, neither of toolbar suppressed and popup visible holds, and
after the button both hold; in neither state does exactly one of them hold. -/
theorem toolbar_suppressed_together_with_popup_visible :
    exactlyOne (toolbarSuppressed (init none (some { shown := true, isEnabled := true })))
        (init none (some { shown := true, isEnabled := true })).isVisible = false ∧
      toolbarSuppressed (run (fun _ v => some v) [Event.buttonExecute]
        (init none (some { shown := true, isEnabled := true }))).1 = true ∧
      (run (fun _ v => some v) [Event.buttonExecute]
        (init none (some { shown := true, isEnabled := true }))).1.isVisible = true ∧
      exactlyOne
        (toolbarSuppressed (run (fun _ v => some v) [Event.buttonExecute]
          (init none (some { shown := true, isEnabled := true }))).1)
        (run (fun _ v => some v) [Event.buttonExecute]
          (init none (some { shown := true, isEnabled := true }))).1.isVisible = false := by
  refine ⟨rfl, ?_, ?_, ?_⟩ <;>
    simp [run, step, andThen, init, showBalloonPanel_state, toolbarSuppressed,
      ImageToolbar.suppressed, exactlyOne]

/-- C4 (amended): with a toolbar that is not suppressed when `init` returns, in
every state reached from there by any sequence of open, close, submit, cancel,
escape and outside-click events the toolbar is suppressed exactly when the popup
is visible, so exactly one of toolbar not suppressed and popup visible holds. -/
theorem toolbar_suppressed_iff_popup_visible
    (exec : Option String → String → Option String) (commandValue : Option String)
    (t : ImageToolbar) (es : List Event) (ht : t.suppressed = false) :
    toolbarSuppressed (run exec es (init commandValue (some t))).1 =
        (run exec es (init commandValue (some t))).1.isVisible ∧
      exactlyOne (!toolbarSuppressed (run exec es (init commandValue (some t))).1)
        (run exec es (init commandValue (some t))).1.isVisible = true := by
  have key := reachable_suppressed_eq_isVisible exec commandValue t es ht
  refine ⟨key, ?_⟩
  rw [key]
  cases (run exec es (init commandValue (some t))).1.isVisible <;> rfl

/-- A session of open, cancel, open, submit with a toolbar that starts enabled. -/
theorem toolbar_suppressed_iff_popup_visible_witness :
    toolbarSuppressed (run (fun _ v => some v)
          [Event.buttonExecute, Event.formCancel, Event.buttonExecute, Event.formSubmit]
          (init none (some { shown := false, isEnabled := true }))).1 =
        (run (fun _ v => some v)
          [Event.buttonExecute, Event.formCancel, Event.buttonExecute, Event.formSubmit]
          (init none (some { shown := false, isEnabled := true }))).1.isVisible ∧
      exactlyOne (!toolbarSuppressed (run (fun _ v => some v)
          [Event.buttonExecute, Event.formCancel, Event.buttonExecute, Event.formSubmit]
          (init none (some { shown := false, isEnabled := true }))).1)
        (run (fun _ v => some v)
          [Event.buttonExecute, Event.formCancel, Event.buttonExecute, Event.formSubmit]
          (init none (some { shown := false, isEnabled := true }))).1.isVisible = true :=
  toolbar_suppressed_iff_popup_visible (fun _ v => some v) none
    { shown := false, isEnabled := true }
    [Event.buttonExecute, Event.formCancel, Event.buttonExecute, Event.formSubmit] rfl

/-- C7: the popup is a two-state machine. The button makes it visible and,
from hidden, is the only event that does; every sequence of events that ends
with close, cancel or submit, or with an escape key press or an outside click
while visible, ends hidden; and the visibility changes in no other way. -/
theorem popup_two_state_machine (exec : Option String → String → Option String)
    (es : List Event) (e : Event) (s : State) :
    (step exec Event.buttonExecute s).1.isVisible = true ∧
      (s.isVisible = false → (step exec e s).1.isVisible = true →
        e = Event.buttonExecute) ∧
      (e.closes = true ∨
          (e.closesWhileVisible = true ∧ (run exec es s).1.isVisible = true) →
        (run exec (es ++ [e]) s).1.isVisible = false) ∧
      ((step exec e s).1.isVisible ≠ s.isVisible →
        (s.isVisible = false ∧ e = Event.buttonExecute) ∨
          (s.isVisible = true ∧ (e.closes = true ∨ e.closesWhileVisible = true))) := by
  refine ⟨by simp [step_isVisible], ?_, ?_, ?_⟩
  · intro _ h
    simpa [step_isVisible] using h
  · intro h
    rw [run_append]
    simp only [andThen, step_isVisible]
    cases e <;> simp_all [Event.closes, Event.closesWhileVisible]
  · intro h
    rw [step_isVisible] at h
    cases e <;> cases hv : s.isVisible <;>
      simp_all [Event.closes, Event.closesWhileVisible]

/-- Open, then an escape key press while visible, from the state `init` leaves. -/
theorem popup_two_state_machine_witness :
    (run (fun _ v => some v) ([Event.buttonExecute] ++ [Event.escPress])
        (init none none)).1.isVisible = false ∧
      Event.buttonExecute = Event.buttonExecute ∧
      ((init none none).isVisible = false ∧ Event.buttonExecute = Event.buttonExecute ∨
        (init none none).isVisible = true ∧
          (Event.buttonExecute.closes = true ∨
            Event.buttonExecute.closesWhileVisible = true)) :=
  ⟨(popup_two_state_machine (fun _ v => some v) [Event.buttonExecute] Event.escPress
      (init none none)).2.2.1
      (Or.inr ⟨rfl, by simp [run, step, andThen, showBalloonPanel_state]⟩),
    (popup_two_state_machine (fun _ v => some v) [] Event.buttonExecute
      (init none none)).2.1 rfl (by simp [step, showBalloonPanel_state]),
    (popup_two_state_machine (fun _ v => some v) [] Event.buttonExecute
      (init none none)).2.2.2 (by simp [step, showBalloonPanel_state, init])⟩

/-! ## The toolbar and the close paths -/

/-- Once the visibility has changed, `imageToolbar.isEnabled` is the negation of
`panel.isVisible`; every handler keeps that. -/
theorem step_keeps_isEnabled (exec : Option String → String → Option String) (e : Event)
    (s : State)
    (h : ∃ t, s.imageToolbar = some t ∧ t.isEnabled = !s.isVisible) :
    ∃ t, (step exec e s).1.imageToolbar = some t ∧
      t.isEnabled = !(step exec e s).1.isVisible := by
  obtain ⟨t, ht, hen⟩ := h
  have h1 := step_imageToolbar exec e s
  obtain ⟨vis, lv, ev, cv, tb, fc⟩ := s
  cases hv : (step exec e ⟨vis, lv, ev, cv, tb, fc⟩).1.isVisible <;> cases vis <;>
    simp_all

/-- Without a toolbar no sequence of events makes a call on one. -/
theorem run_without_toolbar (exec : Option String → String → Option String)
    (es : List Event) (s : State) (h : s.imageToolbar = none) :
    (run exec es s).2.filter Call.isToolbar = [] ∧ (run exec es s).1.imageToolbar = none := by
  induction es generalizing s with
  | nil => simp [run, h]
  | cons a as ih =>
    have h1 : (step exec a s).1.imageToolbar = none := by
      rw [step_imageToolbar]; split <;> simp [h]
    have h2 : (step exec a s).2.filter Call.isToolbar = [] := by
      rw [step_calls_toolbar]; simp [h]
    have h3 := ih (step exec a s).1 h1
    simp only [run, andThen, List.filter_append, h2, h3.1, h3.2, List.append_nil, and_self]

/-- C5: with a toolbar loaded, every handler that takes the popup into visible
calls `hide()` and sets `isEnabled = false` on the toolbar (and nothing else on
it), every handler that takes the popup out of visible calls `show()` and sets
`isEnabled = true`; hence after any sequence of events in which the visibility
changed at least once, `isEnabled` equals the negation of `panel.isVisible`.
With no toolbar loaded, no call on a toolbar is ever made. -/
theorem toolbar_follows_visibility_changes (exec : Option String → String → Option String)
    (s : State) (e : Event) (es before after : List Event) :
    (s.imageToolbar.isSome = true → s.isVisible = false →
        (step exec e s).1.isVisible = true →
        (step exec e s).2.filter Call.isToolbar =
            [Call.toolbarHide, Call.toolbarSetIsEnabled false] ∧
          (step exec e s).1.imageToolbar = some { shown := false, isEnabled := false }) ∧
      (s.imageToolbar.isSome = true → s.isVisible = true →
        (step exec e s).1.isVisible = false →
        (step exec e s).2.filter Call.isToolbar =
            [Call.toolbarShow, Call.toolbarSetIsEnabled true] ∧
          (step exec e s).1.imageToolbar = some { shown := true, isEnabled := true }) ∧
      (s.imageToolbar.isSome = true →
        (step exec e (run exec before s).1).1.isVisible ≠ (run exec before s).1.isVisible →
        ∃ t, (run exec (before ++ e :: after) s).1.imageToolbar = some t ∧
          t.isEnabled = !(run exec (before ++ e :: after) s).1.isVisible) ∧
      (s.imageToolbar = none →
        (run exec es s).2.filter Call.isToolbar = [] ∧
          (run exec es s).1.imageToolbar = none) := by
  refine ⟨?_, ?_, ?_, run_without_toolbar exec es s⟩
  · intro ht hv hv1
    have h1 := step_imageToolbar exec e s
    have h2 := step_calls_toolbar exec e s
    obtain ⟨vis, lv, ev, cv, tb, fc⟩ := s
    cases tb <;> simp_all
  · intro ht hv hv1
    have h1 := step_imageToolbar exec e s
    have h2 := step_calls_toolbar exec e s
    obtain ⟨vis, lv, ev, cv, tb, fc⟩ := s
    cases tb <;> simp_all
  · intro ht hne
    have hsome : (run exec before s).1.imageToolbar.isSome = true :=
      run_preserves exec (fun p => p.imageToolbar.isSome = true)
        (fun a p hp => (step_imageToolbar_isSome exec a p).trans hp) before s ht
    have hstart : ∃ t, (step exec e (run exec before s).1).1.imageToolbar = some t ∧
        t.isEnabled = !(step exec e (run exec before s).1).1.isVisible := by
      have h1 := step_imageToolbar exec e (run exec before s).1
      generalize (run exec before s).1 = p at hne hsome h1
      obtain ⟨vis, lv, ev, cv, tb, fc⟩ := p
      cases hv : (step exec e ⟨vis, lv, ev, cv, tb, fc⟩).1.isVisible <;> cases vis <;>
        cases tb <;> simp_all
    have hrun : (run exec (before ++ e :: after) s).1 =
        (run exec after (step exec e (run exec before s).1).1).1 := by
      rw [run_append_list]
      simp [run, andThen]
    rw [hrun]
    exact run_preserves exec
      (fun p => ∃ t, p.imageToolbar = some t ∧ t.isEnabled = !p.isVisible)
      (fun a p hp => step_keeps_isEnabled exec a p hp) after _ hstart

/-- The button with the toolbar shown, then cancel; the same with a toolbar
that starts disabled although the popup is hidden; and a session without a
toolbar. -/
theorem toolbar_follows_visibility_changes_witness :
    ((step (fun _ v => some v) Event.buttonExecute
          (init none (some { shown := true, isEnabled := true }))).2.filter Call.isToolbar =
          [Call.toolbarHide, Call.toolbarSetIsEnabled false] ∧
        (step (fun _ v => some v) Event.buttonExecute
          (init none (some { shown := true, isEnabled := true }))).1.imageToolbar =
          some { shown := false, isEnabled := false }) ∧
      ((step (fun _ v => some v) Event.formCancel
          { isVisible := true, labeledInputValue := "", elementValue := "",
            commandValue := none, imageToolbar := some { shown := false, isEnabled := false },
            focus := Focus.input }).2.filter Call.isToolbar =
          [Call.toolbarShow, Call.toolbarSetIsEnabled true] ∧
        (step (fun _ v => some v) Event.formCancel
          { isVisible := true, labeledInputValue := "", elementValue := "",
            commandValue := none, imageToolbar := some { shown := false, isEnabled := false },
            focus := Focus.input }).1.imageToolbar =
          some { shown := true, isEnabled := true }) ∧
      (∃ t, (run (fun _ v => some v)
            ([Event.close] ++ Event.buttonExecute :: [Event.buttonExecute])
            (init none (some { shown := false, isEnabled := false }))).1.imageToolbar = some t ∧
          t.isEnabled = !(run (fun _ v => some v)
            ([Event.close] ++ Event.buttonExecute :: [Event.buttonExecute])
            (init none (some { shown := false, isEnabled := false }))).1.isVisible) ∧
      ((run (fun _ v => some v) [Event.buttonExecute, Event.formSubmit]
          (init none none)).2.filter Call.isToolbar = [] ∧
        (run (fun _ v => some v) [Event.buttonExecute, Event.formSubmit]
          (init none none)).1.imageToolbar = none) :=
  ⟨(toolbar_follows_visibility_changes (fun _ v => some v)
      (init none (some { shown := true, isEnabled := true })) Event.buttonExecute [] [] []).1
      rfl rfl (by simp [step_isVisible]),
    (toolbar_follows_visibility_changes (fun _ v => some v)
      { isVisible := true, labeledInputValue := "", elementValue := "",
        commandValue := none, imageToolbar := some { shown := false, isEnabled := false },
        focus := Focus.input } Event.formCancel [] [] []).2.1
      rfl rfl (by simp [step_isVisible]),
    (toolbar_follows_visibility_changes (fun _ v => some v)
      (init none (some { shown := false, isEnabled := false })) Event.buttonExecute []
      [Event.close] [Event.buttonExecute]).2.2.1
      rfl (by simp [step_isVisible, run, andThen, init]),
    (toolbar_follows_visibility_changes (fun _ v => some v)
      (init none none) Event.buttonExecute [Event.buttonExecute, Event.formSubmit] [] []).2.2.2
      rfl⟩

/-- C9: for every state, after any path to close (`_hideBalloonPanel` called
directly, or through submit or cancel, or through an escape key press or an
outside click while visible) the popup is hidden and the focus is on the
editing view, and the toolbar, if one was suppressed, is shown and enabled
again: a toolbar is shown and enabled after the close whenever the popup was
visible, and in every state the plugin reaches from `init` with a toolbar that
is not suppressed, a suppressed toolbar is shown and enabled after the close. A
close of an already hidden popup leaves the toolbar as it was. -/
theorem close_paths_restore_ui (exec : Option String → String → Option String)
    (s : State) (e : Event)
    (h : e.closes = true ∨ (e.closesWhileVisible = true ∧ s.isVisible = true)) :
    (step exec e s).1.isVisible = false ∧
      (step exec e s).1.focus = Focus.editingView ∧
      (s.isVisible = true → ∀ t, s.imageToolbar = some t →
        (step exec e s).1.imageToolbar = some { shown := true, isEnabled := true }) ∧
      (s.isVisible = false → (step exec e s).1.imageToolbar = s.imageToolbar) ∧
      (∀ (commandValue : Option String) (t : ImageToolbar) (es : List Event),
        t.suppressed = false → s = (run exec es (init commandValue (some t))).1 →
        toolbarSuppressed s = true →
        (step exec e s).1.imageToolbar = some { shown := true, isEnabled := true }) := by
  have hvis : (step exec e s).1.isVisible = false := by
    rw [step_isVisible]
    cases e <;> simp_all [Event.closes, Event.closesWhileVisible]
  have hrestore : s.isVisible = true → ∀ t, s.imageToolbar = some t →
      (step exec e s).1.imageToolbar = some { shown := true, isEnabled := true } := by
    intro hv t ht
    rw [step_imageToolbar, hvis, hv, ht]
    simp
  refine ⟨hvis, step_focus_of_closing exec e s h, hrestore, ?_, ?_⟩
  · intro hv
    rw [step_imageToolbar, hvis, hv]
    simp
  · intro commandValue t es ht hs hsup
    have hreach := reachable_suppressed_eq_isVisible exec commandValue t es ht
    rw [← hs, hsup] at hreach
    cases htb : s.imageToolbar with
    | none => simp [toolbarSuppressed, htb] at hsup
    | some t1 => exact hrestore hreach.symm t1 htb

/-- An escape key press in the state reached by the button from the state
`init` leaves with the toolbar shown and enabled: the popup is visible there
and the toolbar suppressed. -/
theorem close_paths_restore_ui_witness :
    toolbarSuppressed (run (fun _ v => some v) [Event.buttonExecute]
        (init (some "a") (some { shown := true, isEnabled := true }))).1 = true ∧
      (step (fun _ v => some v) Event.escPress
        (run (fun _ v => some v) [Event.buttonExecute]
          (init (some "a") (some { shown := true, isEnabled := true }))).1).1.isVisible
        = false ∧
      (step (fun _ v => some v) Event.escPress
        (run (fun _ v => some v) [Event.buttonExecute]
          (init (some "a") (some { shown := true, isEnabled := true }))).1).1.focus
        = Focus.editingView ∧
      (step (fun _ v => some v) Event.escPress
        (run (fun _ v => some v) [Event.buttonExecute]
          (init (some "a") (some { shown := true, isEnabled := true }))).1).1.imageToolbar
        = some { shown := true, isEnabled := true } :=
  ⟨rfl,
    (close_paths_restore_ui (fun _ v => some v)
      (run (fun _ v => some v) [Event.buttonExecute]
        (init (some "a") (some { shown := true, isEnabled := true }))).1
      Event.escPress (Or.inr ⟨rfl, rfl⟩)).1,
    (close_paths_restore_ui (fun _ v => some v)
      (run (fun _ v => some v) [Event.buttonExecute]
        (init (some "a") (some { shown := true, isEnabled := true }))).1
      Event.escPress (Or.inr ⟨rfl, rfl⟩)).2.1,
    (close_paths_restore_ui (fun _ v => some v)
      (run (fun _ v => some v) [Event.buttonExecute]
        (init (some "a") (some { shown := true, isEnabled := true }))).1
      Event.escPress (Or.inr ⟨rfl, rfl⟩)).2.2.2.2 (some "a")
      { shown := true, isEnabled := true } [Event.buttonExecute] rfl rfl rfl⟩

end ImageTextAlternative
